import Mathlib

/-!
Verification of the boot orchestration and dispatch core of talos-pxe.

The Go sources are shallowly embedded below:
* the constants and the iPXE menu template of the main file,
* the `Server` structure, `NewServer`, the startup phase of `Serve`,
  `Shutdown` and the shared outcome channel,
* the boot dispatch filter `ipxeWrapperMenuHandler`,
* the bootstrap mode selection of `main` together with `runDhclient`.

IPv4 addresses are Nat (value of the 32-bit word); the outcome channel
`chan error` is a FIFO buffer of `Option String` (`none` embeds Go's
`nil` error).  Functions whose bodies are not part of the provided
sources are modelled from the specification and say so in their doc
comments.
-/

namespace TalosPxe

/-! ## Constants (main file, `const` block) -/

def portDNS : Nat := 53

def portDHCP : Nat := 67

def portTFTP : Nat := 69

def portHTTP : Nat := 8080

def portPXE : Nat := 4011

/-- The hardcoded upstream DNS forwarder `forwardDns = "1.1.1.1:53"`. -/
def forwardDns : String := "1.1.1.1:53"

def defaultControlplane : String := "controlplane.talos."

/-- `http.StatusOK`. -/
def StatusOK : Nat := 200

/-! ## The shared outcome channel

`NewServer` creates `errs: make(chan error, 6)`.  A Go buffered channel
is embedded as a FIFO list (head = first value enqueued) together with
its capacity.  A blocking send succeeds whenever the buffer is not
full; here both the blocking sends of the service loops and the
non-blocking send of `Shutdown` are expressed with `trySend`, whose
Bool result records whether the value was enqueued without blocking. -/

structure ErrChan where
  cap : Nat
  buf : List (Option String)
deriving DecidableEq

/-- Non-blocking send on a buffered channel: enqueue when the buffer is
not full, otherwise leave the channel unchanged. -/
def trySend (c : ErrChan) (v : Option String) : ErrChan × Bool :=
  if c.buf.length < c.cap then ({ c with buf := c.buf ++ [v] }, true) else (c, false)

/-- Enqueue a list of outcomes in order; the Bool is true when every
single send was accepted without blocking. -/
def sendAll : ErrChan → List (Option String) → ErrChan × Bool
  | c, [] => (c, true)
  | c, v :: vs =>
    let r := trySend c v
    let rest := sendAll r.1 vs
    (rest.1, r.2 && rest.2)

/-- Receive on the channel: the first value enqueued, and the channel
with that value removed; `none` when the buffer is empty (a blocked
receiver). -/
def recvFirst (c : ErrChan) : Option (Option String × ErrChan) :=
  match c.buf with
  | [] => none
  | v :: rest => some (v, { c with buf := rest })

/-- `Shutdown` (server.go lines 175-185): a non-blocking send of the
nil error into the shared outcome channel —
`select { case s.errs <- nil: default: }`. -/
def Shutdown (c : ErrChan) : ErrChan := (trySend c none).1

/-- The final step of `Serve` (server.go lines 124-126): one receive on
the shared outcome channel; `Serve` returns that first outcome. -/
def serveAwait (c : ErrChan) : Option (Option String × ErrChan) := recvFirst c

/-! ## The Server structure and NewServer

Fields of the Go struct that no claim touches are omitted from the
embedding: the port fields (defaulted in the first lines of `Serve`),
`DNSRecordsv6`, `DNSRRecords`, the DHCP record map, the mutexes, and
the handles to the running protocol servers. -/

structure Server where
  ServerRoot : String
  IP : Nat
  GWIP : Nat
  Net : Option (Nat × Nat)
  ForwardDns : List String
  Intf : String
  Controlplane : String
  ProxyDHCP : Bool
  DNSRecordsv4 : List (String × List String)
  DHCPAllocator : Option (Nat × Nat)
  errs : ErrChan
deriving DecidableEq

/-- `NewServer` (server.go lines 129-146): zero-valued configuration,
empty record stores, and the outcome channel with 6 buffer slots — one
for each of the five service goroutines plus one for `Shutdown()`. -/
def NewServer (serverRoot interfaceName controlplane : String) : Server :=
  { ServerRoot := serverRoot
    IP := 0
    GWIP := 0
    Net := none
    ForwardDns := []
    Intf := interfaceName
    Controlplane := controlplane
    ProxyDHCP := false
    DNSRecordsv4 := []
    DHCPAllocator := none
    errs := { cap := 6, buf := [] } }

/-- The number of service loops `Serve` launches (server.go lines
118-122). -/
def numServiceLoops : Nat := 5

/-- The forward-DNS defaulting step of `Serve` (server.go lines 91-93):
an empty forwarder list becomes the single hardcoded upstream
forwarder.  The preceding port defaulting (lines 75-89) touches only
the omitted port fields. -/
def serveDefaultForwardDns (s : Server) : Server :=
  if s.ForwardDns = [] then { s with ForwardDns := [forwardDns] } else s

/-! ## The startup phase of Serve -/

inductive ServeEvent where
  | defaults
  | bind (svc : String)
  | launch (svc : String)
deriving DecidableEq

/-- The sockets `Serve` binds before launching any loop, in program
order (server.go lines 95-114): TFTP, PXE, matchbox HTTP, DNS.  The
DHCP service has no socket bound in `Serve`; `startDhcp()` is invoked
with no connection argument inside its own goroutine (line 121). -/
def bindOrder : List String := ["tftp", "pxe", "http", "dns"]

/-- The goroutine launches of `Serve`, in program order (server.go
lines 118-122). -/
def launchOrder : List String := ["pxe", "tftp", "matchbox", "dhcp", "dns"]

structure StartupResult where
  events : List ServeEvent
  bound : List String
  closedOnReturn : List String
  launched : List String
  bindErr : Option String
deriving DecidableEq

/-- The startup phase of `Serve` (server.go lines 75-122) as a function
of which binds succeed.  Binds run in program order; the first failing
bind returns its error: the deferred `Close` calls close every socket
bound so far (`closedOnReturn`) and no goroutine is launched.  When
every bind succeeds the five loops are launched and `Serve` blocks on
the outcome channel (`serveAwait`); `closedOnReturn` is empty on that
path because `Serve` has not returned. -/
def serveStartup (bindOk : String → Bool) : StartupResult :=
  match bindOrder.findIdx? (fun svc => !bindOk svc) with
  | some i =>
    { events := ServeEvent.defaults :: (bindOrder.take i).map ServeEvent.bind
      bound := bindOrder.take i
      closedOnReturn := bindOrder.take i
      launched := []
      bindErr := (bindOrder.drop i).headD "" }
  | none =>
    { events := ServeEvent.defaults ::
        (bindOrder.map ServeEvent.bind ++ launchOrder.map ServeEvent.launch)
      bound := bindOrder
      closedOnReturn := []
      launched := launchOrder
      bindErr := none }

/-! ## The iPXE menu template -/

/-- Dotted-quad rendering of an IPv4 address held as a Nat. -/
def ipToString (ip : Nat) : String :=
  toString (ip / 16777216 % 256) ++ "." ++ toString (ip / 65536 % 256) ++ "." ++
    toString (ip / 256 % 256) ++ "." ++ toString (ip % 256)

/-- The query tail shared by the three `chain` lines of the menu
template. -/
def ipxeChainQuery : String :=
  "/ipxe?uuid=$\x7buuid\x7d&ip=$\x7bip\x7d&mac=$\x7bmac:hexhyp\x7d&domain=$\x7bdomain\x7d&hostname=$\x7bhostname\x7d&serial=$\x7bserial\x7d&type="

/-- One `chain` target of the menu: label, then the chain URL built
from the server address and the boot type. -/
def ipxeChainEntry (ip label : String) : String :=
  ":" ++ label ++ "\nchain http://" ++ ip ++ ":8080" ++ ipxeChainQuery ++ label ++ "\n\n"

/-- `ipxeMenuTemplate` (main file lines 32-68) rendered against a
server: every occurrence of the `.IP` template variable is replaced by
the server's address, everything else is the literal template text. -/
def ipxeMenuRendered (ip : String) : String :=
  "#!ipxe\n" ++
  "isset $\x7bproxydhcp/next-server\x7d || goto start\n" ++
  "set next-server $\x7bproxydhcp/next-server\x7d\n" ++
  "set filename $\x7bproxydhcp/filename\x7d\n\n" ++
  ":start\n" ++
  "menu iPXE boot menu for Talos\n" ++
  "item --gap                      Talos Nodes\n" ++
  "item --key i init               Bootstrap Node\n" ++
  "item --key c controlplane       Master Node\n" ++
  "item --key w worker             Worker Node\n" ++
  "item --gap                      Other\n" ++
  "item --key s shell              iPXE Shell\n" ++
  "item --key r reboot             Reboot\n" ++
  "item --key e exit               Exit\n" ++
  "choose --timeout 0 --default worker selected || goto cancel\n" ++
  "set menu-timeout 0\n" ++
  "goto $\x7bselected\x7d\n\n" ++
  ipxeChainEntry ip "init" ++
  ipxeChainEntry ip "controlplane" ++
  ipxeChainEntry ip "worker" ++
  ":reboot\nreboot\n\n" ++
  ":shell\nshell\n\n" ++
  ":exit\nexit\n"

/-! ## The boot dispatch filter -/

/-- One boot HTTP request as the handler observes it: the URL path,
whether `req.ParseForm()` succeeds, and the `type` and `ip` query
parameters. -/
structure BootRequest where
  path : String
  parseFormOk : Bool
  typeParam : String
  ipParam : String
deriving DecidableEq

/-- A captured downstream HTTP response: status code, headers, body. -/
structure HttpResponse where
  code : Nat
  headers : List (String × String)
  body : String
deriving DecidableEq

/-- What the filter writes to the client.  `direct` means the request
was handed straight to the wrapped handler with no response capture;
`relayed` copies a captured response (status, headers, body) verbatim;
`menu` is the rendered menu written with the implicit status 200;
`renderError` is the `WriteHeader(http.StatusInternalServerError)`
path; `nothingWritten` is the early return after a `ParseForm`
failure. -/
inductive ClientWrite where
  | direct
  | relayed (resp : HttpResponse)
  | menu (body : String)
  | renderError
  | nothingWritten
deriving DecidableEq

/-- The status code delivered to the client, when one is written by the
filter itself. -/
def writeStatus : ClientWrite → Option Nat
  | ClientWrite.direct => none
  | ClientWrite.relayed r => some r.code
  | ClientWrite.menu _ => some StatusOK
  | ClientWrite.renderError => some 500
  | ClientWrite.nothingWritten => none

/-- Append `ip` to the sequence stored under `name`, keeping every
other binding; a fresh name is inserted at the end. -/
def dnsAppend (store : List (String × List String)) (name ip : String) :
    List (String × List String) :=
  match store with
  | [] => [(name, [ip])]
  | (n, ips) :: rest =>
    if n = name then (n, ips ++ [ip]) :: rest else (n, ips) :: dnsAppend rest name ip

/-- Modelled from the spec: the body of `registerDNSEntry` is not in the
provided sources (only its call in `ipxeWrapperMenuHandler`); per the
spec it appends the address under the name in the DNS store — "append
semantics — multiple control-plane nodes accumulate under the same
name". -/
def registerDNSEntry (s : Server) (name ip : String) : Server :=
  { s with DNSRecordsv4 := dnsAppend s.DNSRecordsv4 name ip }

/-- The outcome of the filter on one request: what reaches the client,
the server state afterwards, and the list of DNS registrations the
request caused (name, announced ip). -/
structure HandlerResult where
  write : ClientWrite
  server : Server
  dnsRegs : List (String × String)
deriving DecidableEq

/-- `ipxeWrapperMenuHandler` (server.go lines 257-302).  `primary` is
the wrapped matchbox handler, observed as a function from the request
to the response it writes; `renderOk` embeds whether
`ipxeMenuTemplate.Execute` succeeds on this response writer.  The
branch structure is the source's: requests off the `/ipxe` path pass
straight through; otherwise the downstream response is captured and
the test `rr.Code != http.StatusOK` selects between the
parse/register/relay path and the menu path. -/
def ipxeWrapperMenuHandler (s : Server) (primary : BootRequest → HttpResponse)
    (renderOk : Bool) (req : BootRequest) : HandlerResult :=
  if req.path ≠ "ipxe" ∧ req.path ≠ "/ipxe" then
    { write := ClientWrite.direct, server := s, dnsRegs := [] }
  else
    let rr := primary req
    if rr.code ≠ StatusOK then
      if req.parseFormOk then
        if req.typeParam = "init" ∨ req.typeParam = "controlplane" then
          { write := ClientWrite.relayed rr
            server := registerDNSEntry s s.Controlplane req.ipParam
            dnsRegs := [(s.Controlplane, req.ipParam)] }
        else
          { write := ClientWrite.relayed rr, server := s, dnsRegs := [] }
      else
        { write := ClientWrite.nothingWritten, server := s, dnsRegs := [] }
    else
      if renderOk then
        { write := ClientWrite.menu (ipxeMenuRendered (ipToString s.IP))
          server := s, dnsRegs := [] }
      else
        { write := ClientWrite.renderError, server := s, dnsRegs := [] }

/-! ## The address range planner -/

/-- Modelled from the spec: the body of `getAvailableRange` is not in
the provided sources (only its call in `main`).  Per the spec's policy
the first usable address is network+1 unless that equals the host
address, in which case network+2; the last usable address is
broadcast-1 unless that equals the host address, in which case
broadcast-2.  The prefix is (network, maskLen); addresses are Nat. -/
def getAvailableRange (network maskLen host : Nat) : Nat × Nat :=
  let broadcast := network + 2 ^ (32 - maskLen) - 1
  let first := if network + 1 = host then network + 2 else network + 1
  let last := if broadcast - 1 = host then broadcast - 2 else broadcast - 1
  (first, last)

/-! ## Bootstrap mode selection -/

/-- A DHCP lease as `main` consumes it: fixed address, netmask length,
routers, DNS servers (the latter as strings, formatted with
`"%s:53"`). -/
structure Lease where
  fixedAddress : Nat
  maskLen : Nat
  router : List Nat
  dns : List String
deriving DecidableEq

/-- Network-interface side effects `main` performs while selecting the
mode. -/
inductive LinkAction where
  | setLinkIp (ip : Nat) (maskLen : Nat)
  | setLinkDefaultGw (gw : Nat)
deriving DecidableEq

/-- The bound on the DHCP negotiation:
`context.WithTimeout(ctx, 10*time.Second)` in `runDhclient`. -/
def dhclientTimeout : Nat := 10

/-- `runDhclient` (main file lines 70-98): the select between the lease
channel and the context deadline.  The argument is the instant (in
seconds) at which the external server would deliver a lease, if ever;
a lease arriving strictly before the timeout is returned, otherwise
the result is nil (the error branch "Could not get DHCP"). -/
def runDhclient (leaseArrival : Option (Nat × Lease)) : Option Lease :=
  match leaseArrival with
  | some (t, lease) => if t < dhclientTimeout then some lease else none
  | none => none

/-- The mode-selection branch of `main` (main file lines 134-179),
keyed on `lease != nil`.  With a lease: apply the leased address to the
link, add the leased routers as gateways, append each leased DNS
server (formatted host:53) to the forwarder list, record the leased
address, and set `ProxyDHCP`.  Without a lease: take the static
address and prefix, plan the available range, build the bitmap
allocator over it (recorded as its range), apply the static address to
the link, and clear `ProxyDHCP`. -/
def selectMode (s : Server) (lease : Option Lease)
    (staticIp staticNetwork staticMaskLen : Nat) : Server × List LinkAction :=
  match lease with
  | some l =>
    ({ s with
        ForwardDns := s.ForwardDns ++ l.dns.map (fun d => d ++ ":53")
        IP := l.fixedAddress
        ProxyDHCP := true },
     LinkAction.setLinkIp l.fixedAddress l.maskLen :: l.router.map LinkAction.setLinkDefaultGw)
  | none =>
    ({ s with
        IP := staticIp
        Net := some (staticNetwork, staticMaskLen)
        ProxyDHCP := false
        DHCPAllocator := some (getAvailableRange staticNetwork staticMaskLen staticIp) },
     [LinkAction.setLinkIp staticIp staticMaskLen])

/-! ## Concrete fixtures used by the closed evaluations -/

/-- A server configured like the authoritative-mode default:
address 192.168.123.1, control-plane name `controlplane.talos.`,
empty DNS store. -/
def testServer : Server :=
  { NewServer "." "eth0" defaultControlplane with IP := 3232267009 }

/-- A boot request to `/ipxe` announcing type `controlplane` and
address 10.0.0.5. -/
def cpRequest : BootRequest :=
  { path := "/ipxe", parseFormOk := true, typeParam := "controlplane", ipParam := "10.0.0.5" }

/-- A downstream matchbox handler holding a machine-specific profile
for every request: captured status 200 with the profile's boot
script. -/
def matchedPrimary : BootRequest → HttpResponse :=
  fun _ => { code := 200, headers := [("Content-Type", "text/plain")],
             body := "#!ipxe\nkernel vmlinuz\nboot\n" }

/-- A downstream matchbox handler with no matching profile: captured
status 404. -/
def unmatchedPrimary : BootRequest → HttpResponse :=
  fun _ => { code := 404, headers := [("Content-Type", "text/plain")],
             body := "no matching profile\n" }

/-- A downstream handler whose captured status depends on the request:
404 for requests announcing type `worker`, 200 otherwise. -/
def mixedPrimary : BootRequest → HttpResponse :=
  fun r => if r.typeParam = "worker" then unmatchedPrimary r else matchedPrimary r

/-- A boot request whose query string fails to parse. -/
def badFormRequest : BootRequest :=
  { path := "/ipxe", parseFormOk := false, typeParam := "worker", ipParam := "" }

/-! ## Helper lemmas -/

theorem sendAll_ok (vs : List (Option String)) (c : ErrChan)
    (h : c.buf.length + vs.length ≤ c.cap) :
    (sendAll c vs).1 = { c with buf := c.buf ++ vs } ∧ (sendAll c vs).2 = true := by
  induction vs generalizing c with
  | nil => simp [sendAll]
  | cons v vs ih =>
    have h' : c.buf.length + 1 + vs.length ≤ c.cap := by
      simp only [List.length_cons] at h
      omega
    have hlt : c.buf.length < c.cap := by omega
    have hsend : trySend c v = ({ c with buf := c.buf ++ [v] }, true) := by
      simp [trySend, hlt]
    have hrec := ih { c with buf := c.buf ++ [v] } (by simpa using h')
    refine ⟨?_, ?_⟩
    · simp only [sendAll, hsend, hrec.1]
      simp
    · simp only [sendAll, hsend]
      simp [hrec.2]

theorem recvFirst_fst (c : ErrChan) :
    (recvFirst c).map Prod.fst = c.buf.head? := by
  cases h : c.buf with
  | nil => simp [recvFirst, h]
  | cons v rest => simp [recvFirst, h]

theorem Shutdown_head_of_ne (c : ErrChan) (h : c.buf ≠ []) :
    (Shutdown c).buf.head? = c.buf.head? ∧ (Shutdown c).buf ≠ [] := by
  rcases hb : c.buf with _ | ⟨v, rest⟩
  · exact absurd hb h
  · unfold Shutdown trySend
    rw [hb]
    by_cases hc : (v :: rest).length < c.cap
    · rw [if_pos hc]
      simp
    · rw [if_neg hc]
      simp [hb]

theorem Shutdown_iter_head (k : Nat) (c : ErrChan) (h : c.buf ≠ []) :
    (Shutdown^[k] c).buf.head? = c.buf.head? ∧ (Shutdown^[k] c).buf ≠ [] := by
  induction k generalizing c with
  | zero => exact ⟨rfl, h⟩
  | succ k ih =>
    have hstep := Shutdown_head_of_ne c h
    have := ih (Shutdown c) hstep.2
    rw [Function.iterate_succ_apply]
    exact ⟨this.1.trans hstep.1, this.2⟩

/-! ## Claim theorems -/

/-- C1: evaluation of the dispatch filter at a `/ipxe` boot request with
type `controlplane` and announced ip 10.0.0.5 whose captured downstream
response is 200 OK (a machine-specific profile matched).  The code does
NOT relay the captured response and does NOT register the ip: the test
`rr.Code != http.StatusOK` on server.go line 267 places the
register-and-relay path in the non-OK branch, so an OK capture is
discarded, the generic menu is written instead, and the DNS store is
left unchanged. -/
theorem ipxe_ok_capture_serves_menu_without_registering :
    ipxeWrapperMenuHandler testServer matchedPrimary true cpRequest =
      { write := ClientWrite.menu (ipxeMenuRendered (ipToString testServer.IP))
        server := testServer
        dnsRegs := [] } ∧
    (ipxeWrapperMenuHandler testServer matchedPrimary true cpRequest).server.DNSRecordsv4 = [] := by
  constructor <;> rfl

/-- C2: evaluation of the dispatch filter at the same `/ipxe` boot
request when the captured downstream response is 404 (no
machine-specific profile matched).  Contrary to the claim, the code
performs a DNS registration of 10.0.0.5 under the control-plane name
and relays the captured 404 status, headers, and body verbatim to the
client; no menu is rendered. -/
theorem ipxe_notfound_capture_registers_and_relays :
    ipxeWrapperMenuHandler testServer unmatchedPrimary true cpRequest =
      { write := ClientWrite.relayed
          { code := 404, headers := [("Content-Type", "text/plain")],
            body := "no matching profile\n" }
        server := { testServer with
          DNSRecordsv4 := [("controlplane.talos.", ["10.0.0.5"])] }
        dnsRegs := [("controlplane.talos.", "10.0.0.5")] } ∧
    writeStatus (ipxeWrapperMenuHandler testServer unmatchedPrimary true cpRequest).write =
      some 404 := by
  constructor <;> rfl

/-- C9: a request whose URL path is neither `ipxe` nor `/ipxe` is handed
straight to the wrapped boot-asset handler — no response capture, no
menu, no DNS registration, and the server state (in particular the DNS
record store) is unchanged. -/
theorem non_ipxe_requests_pass_through (s : Server)
    (primary : BootRequest → HttpResponse) (renderOk : Bool) (req : BootRequest)
    (h1 : req.path ≠ "ipxe") (h2 : req.path ≠ "/ipxe") :
    ipxeWrapperMenuHandler s primary renderOk req =
      { write := ClientWrite.direct, server := s, dnsRegs := [] } := by
  unfold ipxeWrapperMenuHandler
  rw [if_pos ⟨h1, h2⟩]

/-- C9 witness: the pass-through at a concrete asset request. -/
theorem non_ipxe_requests_pass_through_witness :
    ipxeWrapperMenuHandler testServer matchedPrimary true
        { path := "/assets/vmlinuz", parseFormOk := true, typeParam := "", ipParam := "" } =
      { write := ClientWrite.direct, server := testServer, dnsRegs := [] } :=
  non_ipxe_requests_pass_through testServer matchedPrimary true
    { path := "/assets/vmlinuz", parseFormOk := true, typeParam := "", ipParam := "" }
    (by decide) (by decide)

/-- C10: when the forwarder list is empty as `Serve` begins, the
defaulting step sets it to exactly the single hardcoded upstream
forwarder "1.1.1.1:53"; this step is the first event of the startup
phase, before any socket is bound and before any service loop is
launched. -/
theorem serve_defaults_forward_dns (s : Server) (bindOk : String → Bool)
    (h : s.ForwardDns = []) :
    (serveDefaultForwardDns s).ForwardDns = ["1.1.1.1:53"] ∧
    (serveStartup bindOk).events.head? = some ServeEvent.defaults := by
  constructor
  · simp [serveDefaultForwardDns, h, forwardDns]
  · unfold serveStartup
    cases bindOrder.findIdx? (fun svc => !bindOk svc) <;> rfl

/-- C10 witness: the defaulting applied to a freshly constructed server
(whose forwarder list is empty) with every bind succeeding. -/
theorem serve_defaults_forward_dns_witness :
    (serveDefaultForwardDns (NewServer "." "eth0" defaultControlplane)).ForwardDns =
      ["1.1.1.1:53"] ∧
    (serveStartup (fun _ => true)).events.head? = some ServeEvent.defaults :=
  serve_defaults_forward_dns (NewServer "." "eth0" defaultControlplane) (fun _ => true) rfl

/-- C3: the outcome channel a fresh server carries has capacity 6, which
is the number of service loops plus one external shutdown signal; when
the loops and one shutdown deliver up to six outcomes, every enqueue is
accepted without blocking, and the single receive that ends `Serve`
returns the first outcome enqueued, leaving the remaining outcomes
buffered — `Serve` does not wait for the other loops. -/
theorem serve_returns_first_outcome (root intf cp : String) (v : Option String)
    (vs : List (Option String)) (hlen : (v :: vs).length ≤ 6) :
    (NewServer root intf cp).errs.cap = numServiceLoops + 1 ∧
    (sendAll (NewServer root intf cp).errs (v :: vs)).2 = true ∧
    serveAwait (sendAll (NewServer root intf cp).errs (v :: vs)).1 =
      some (v, { cap := 6, buf := vs }) := by
  have hch : (NewServer root intf cp).errs = { cap := 6, buf := [] } := rfl
  have hs := sendAll_ok (v :: vs) { cap := 6, buf := [] } (by simpa using hlen)
  refine ⟨rfl, ?_, ?_⟩
  · rw [hch, hs.2]
  · rw [hch, hs.1]
    rfl

/-- C3 witness: all five loops fail near-simultaneously and a shutdown
is requested; the six outcomes all fit, and `Serve` returns the first
loop's error. -/
theorem serve_returns_first_outcome_witness :
    (NewServer "." "eth0" "controlplane.talos.").errs.cap = numServiceLoops + 1 ∧
    (sendAll (NewServer "." "eth0" "controlplane.talos.").errs
        [some "pxe failed", some "tftp failed", some "matchbox failed",
         some "dhcp failed", some "dns failed", none]).2 = true ∧
    serveAwait (sendAll (NewServer "." "eth0" "controlplane.talos.").errs
        [some "pxe failed", some "tftp failed", some "matchbox failed",
         some "dhcp failed", some "dns failed", none]).1 =
      some (some "pxe failed",
        { cap := 6,
          buf := [some "tftp failed", some "matchbox failed",
                  some "dhcp failed", some "dns failed", none] }) :=
  serve_returns_first_outcome "." "eth0" "controlplane.talos." (some "pxe failed")
    [some "tftp failed", some "matchbox failed", some "dhcp failed",
     some "dns failed", none] (by decide)

/-- C4 counterexample: `Shutdown` is not a no-op once an outcome has
been delivered.  Concretely: a loop enqueues the error "loop failed"
into the empty channel, `Serve` receives it (the outcome is
delivered, the buffer is empty again) — and a `Shutdown` call now
changes the channel state by enqueuing a nil outcome, refuting
"enqueues nothing and changes no state if an outcome has already been
delivered". -/
theorem shutdown_after_delivery_changes_state :
    recvFirst (trySend { cap := 6, buf := [] } (some "loop failed")).1 =
      some (some "loop failed", { cap := 6, buf := [] }) ∧
    Shutdown { cap := 6, buf := [] } = { cap := 6, buf := [none] } ∧
    Shutdown { cap := 6, buf := [] } ≠ { cap := 6, buf := [] } := by
  refine ⟨rfl, rfl, ?_⟩
  decide

/-- C4 amended: `Shutdown` is a non-blocking send of nil — it enqueues
a nil outcome whenever the buffer holds fewer than its 6 slots (even
when an outcome is already pending or has already been delivered) and
has no effect only when the buffer is full; and for every sequence of
`Shutdown` calls made after the loops enqueued their outcomes, `Serve`
still returns the first outcome enqueued before any shutdown nil. -/
theorem shutdown_nonblocking_send (c d : ErrChan) (k : Nat) (hd : d.buf ≠ []) :
    (c.buf.length < c.cap → Shutdown c = { c with buf := c.buf ++ [none] }) ∧
    (c.cap ≤ c.buf.length → Shutdown c = c) ∧
    (recvFirst (Shutdown^[k] d)).map Prod.fst = d.buf.head? := by
  refine ⟨?_, ?_, ?_⟩
  · intro hlt
    simp [Shutdown, trySend, hlt]
  · intro hge
    simp [Shutdown, trySend, Nat.not_lt.mpr hge]
  · rw [recvFirst_fst]
    exact (Shutdown_iter_head k d hd).1

/-- C4 witness: a channel holding one pending outcome accepts the
shutdown nil after it, and three shutdown calls after a loop error was
enqueued do not change what `Serve` returns. -/
theorem shutdown_nonblocking_send_witness :
    ({ cap := 6, buf := [some "boom"] } : ErrChan).buf.length <
        ({ cap := 6, buf := [some "boom"] } : ErrChan).cap ∧
    Shutdown { cap := 6, buf := [some "boom"] } =
      { cap := 6, buf := [some "boom", none] } ∧
    (recvFirst (Shutdown^[3] ({ cap := 6, buf := [some "boom", none] } : ErrChan))).map
        Prod.fst = some (some "boom") :=
  have h := shutdown_nonblocking_send { cap := 6, buf := [some "boom"] }
    { cap := 6, buf := [some "boom", none] } 3 (by decide)
  ⟨by decide, h.1 (by decide), h.2.2⟩

/-- C5 counterexample: in the startup phase of `Serve` with every bind
succeeding, the DHCP loop is launched although no DHCP socket bind ever
occurs among `Serve`'s events — `startDhcp()` is called with no
pre-bound socket inside its own goroutine — so it is false that all
five service loops have their sockets bound before any loop starts. -/
theorem serve_launches_dhcp_without_prior_bind :
    ServeEvent.launch "dhcp" ∈ (serveStartup (fun _ => true)).events ∧
    ServeEvent.bind "dhcp" ∉ (serveStartup (fun _ => true)).events ∧
    "dhcp" ∉ (serveStartup (fun _ => true)).bound := by
  refine ⟨?_, ?_, ?_⟩ <;> decide

/-- C5 amended: four of the five service loops (TFTP, PXE, boot-asset
HTTP, DNS) have their sockets bound before any loop starts, while the
DHCP service binds its own socket inside its loop; if any of those four
binds fails, `Serve` returns the error before launching any loop, and
the deferred closes leave no partial set of listeners running — every
socket bound so far is closed on return. -/
theorem serve_bind_failure_aborts_startup (bindOk : String → Bool) (e : String)
    (h : (serveStartup bindOk).bindErr = some e) :
    (serveStartup bindOk).launched = [] ∧
    (serveStartup bindOk).closedOnReturn = (serveStartup bindOk).bound ∧
    (∀ svc, ServeEvent.launch svc ∉ (serveStartup bindOk).events) ∧
    (serveStartup bindOk).bound.Sublist bindOrder ∧
    "dhcp" ∉ bindOrder := by
  cases hi : bindOrder.findIdx? (fun svc => !bindOk svc) with
  | none =>
    rw [serveStartup, hi] at h
    simp at h
  | some i =>
    rw [serveStartup, hi]
    refine ⟨rfl, rfl, ?_, List.take_sublist i bindOrder, by decide⟩
    intro svc hmem
    simp only [List.mem_cons, List.mem_map] at hmem
    rcases hmem with hd | ⟨b, _, hb⟩
    · exact ServeEvent.noConfusion hd
    · exact ServeEvent.noConfusion hb

/-- C5 witness: the HTTP bind fails while TFTP and PXE bound first; the
startup aborts with no loop launched and both bound sockets closed. -/
theorem serve_bind_failure_aborts_startup_witness :
    (serveStartup (fun svc => !(svc == "http"))).launched = [] ∧
    (serveStartup (fun svc => !(svc == "http"))).closedOnReturn =
      (serveStartup (fun svc => !(svc == "http"))).bound ∧
    (∀ svc, ServeEvent.launch svc ∉ (serveStartup (fun svc => !(svc == "http"))).events) ∧
    (serveStartup (fun svc => !(svc == "http"))).bound.Sublist bindOrder ∧
    "dhcp" ∉ bindOrder :=
  serve_bind_failure_aborts_startup (fun svc => !(svc == "http")) "http" (by decide)

/-- C6 counterexample: for the prefix 192.168.123.0/24 (which has 256 ≥
4 addresses) and the host address 192.168.123.5 — strictly inside the
prefix — the planned range is 192.168.123.1 – 192.168.123.254, which
contains the host address: the range planner does not exclude a host
address lying strictly between the first and last usable addresses.
(192.168.123.0 = 3232267008, 192.168.123.5 = 3232267013.) -/
theorem planned_range_contains_interior_host :
    4 ≤ 2 ^ (32 - 24) ∧
    3232267008 < 3232267013 ∧
    3232267013 < 3232267008 + 2 ^ (32 - 24) - 1 ∧
    getAvailableRange 3232267008 24 3232267013 = (3232267009, 3232267262) ∧
    (getAvailableRange 3232267008 24 3232267013).1 ≤ 3232267013 ∧
    3232267013 ≤ (getAvailableRange 3232267008 24 3232267013).2 := by
  refine ⟨?_, ?_, ?_, ?_, ?_, ?_⟩ <;> decide

/-- C6 amended: for every prefix with at least 4 addresses and any host
address strictly inside it, the planned range satisfies first ≤ last and
excludes the network and broadcast addresses; it excludes the host
address when the host is the first usable address (network+1) or the
last usable address (broadcast-1); concretely, for prefix
192.168.123.0/24 and host 192.168.123.1 the planned range is
192.168.123.2 – 192.168.123.254. -/
theorem getAvailableRange_first_le_last_excludes_edges (network maskLen host : Nat)
    (hmask : maskLen ≤ 30) (hlo : network < host)
    (hhi : host < network + 2 ^ (32 - maskLen) - 1) :
    network < (getAvailableRange network maskLen host).1 ∧
    (getAvailableRange network maskLen host).1 ≤ (getAvailableRange network maskLen host).2 ∧
    (getAvailableRange network maskLen host).2 < network + 2 ^ (32 - maskLen) - 1 ∧
    (host = network + 1 ∨ host = network + 2 ^ (32 - maskLen) - 2 →
      host < (getAvailableRange network maskLen host).1 ∨
      (getAvailableRange network maskLen host).2 < host) ∧
    getAvailableRange 3232267008 24 3232267009 = (3232267010, 3232267262) := by
  have hsize : 4 ≤ 2 ^ (32 - maskLen) := by
    have h2 : 2 ≤ 32 - maskLen := by omega
    calc (4 : Nat) = 2 ^ 2 := by norm_num
    _ ≤ 2 ^ (32 - maskLen) := Nat.pow_le_pow_right (by norm_num) h2
  simp only [getAvailableRange]
  refine ⟨?_, ?_, ?_, ?_, by decide⟩ <;> split_ifs <;> omega

/-- C6 witness: the amended statement at the concrete prefix
192.168.123.0/24 with host 192.168.123.1. -/
theorem getAvailableRange_first_le_last_excludes_edges_witness :
    3232267008 < (getAvailableRange 3232267008 24 3232267009).1 ∧
    (getAvailableRange 3232267008 24 3232267009).1 ≤
      (getAvailableRange 3232267008 24 3232267009).2 ∧
    (getAvailableRange 3232267008 24 3232267009).2 < 3232267008 + 2 ^ (32 - 24) - 1 ∧
    (3232267009 = 3232267008 + 1 ∨ 3232267009 = 3232267008 + 2 ^ (32 - 24) - 2 →
      3232267009 < (getAvailableRange 3232267008 24 3232267009).1 ∨
      (getAvailableRange 3232267008 24 3232267009).2 < 3232267009) ∧
    getAvailableRange 3232267008 24 3232267009 = (3232267010, 3232267262) :=
  getAvailableRange_first_le_last_excludes_edges 3232267008 24 3232267009
    (by decide) (by decide) (by decide)

/-- C7: the bootstrap mode selector.  A lease delivered strictly before
the 10-second bound makes `runDhclient` return it and the selection
enter proxy mode: the proxy flag is set, the leased address becomes the
server address, each leased DNS server is appended (as host:53) to the
forwarder list, the leased address is applied to the link, and no local
allocator is built.  A lease arriving at or after the bound, or never,
makes `runDhclient` return nil and the selection enter authoritative
mode: the static address and prefix are taken, the planned client range
becomes the bitmap allocator's range, the static address is applied to
the link, and the proxy flag is cleared. -/
theorem selectMode_proxy_or_authoritative (s : Server) (t u : Nat) (lease : Lease)
    (ip0 net0 len0 : Nat) (halloc : s.DHCPAllocator = none) (ht : t < dhclientTimeout) :
    (selectMode s (runDhclient (some (t, lease))) ip0 net0 len0).1.ProxyDHCP = true ∧
    (selectMode s (runDhclient (some (t, lease))) ip0 net0 len0).1.IP = lease.fixedAddress ∧
    (selectMode s (runDhclient (some (t, lease))) ip0 net0 len0).1.ForwardDns =
      s.ForwardDns ++ lease.dns.map (fun d => d ++ ":53") ∧
    (selectMode s (runDhclient (some (t, lease))) ip0 net0 len0).1.DHCPAllocator = none ∧
    LinkAction.setLinkIp lease.fixedAddress lease.maskLen ∈
      (selectMode s (runDhclient (some (t, lease))) ip0 net0 len0).2 ∧
    runDhclient (some (dhclientTimeout + u, lease)) = none ∧
    (selectMode s (runDhclient none) ip0 net0 len0).1.ProxyDHCP = false ∧
    (selectMode s (runDhclient none) ip0 net0 len0).1.IP = ip0 ∧
    (selectMode s (runDhclient none) ip0 net0 len0).1.Net = some (net0, len0) ∧
    (selectMode s (runDhclient none) ip0 net0 len0).1.DHCPAllocator =
      some (getAvailableRange net0 len0 ip0) ∧
    LinkAction.setLinkIp ip0 len0 ∈ (selectMode s (runDhclient none) ip0 net0 len0).2 := by
  have hr : runDhclient (some (t, lease)) = some lease := by
    simp [runDhclient, ht]
  have hto : runDhclient (some (dhclientTimeout + u, lease)) = none := by
    simp only [runDhclient]
    rw [if_neg (by omega : ¬ dhclientTimeout + u < dhclientTimeout)]
  have hn : runDhclient none = none := rfl
  refine ⟨?_, ?_, ?_, ?_, ?_, hto, ?_, ?_, ?_, ?_, ?_⟩ <;>
    simp [hr, hn, selectMode, halloc]

/-- C7 witness: a lease arriving after 3 seconds versus no lease at
all, on a fresh server with the static default 192.168.123.1/24. -/
theorem selectMode_proxy_or_authoritative_witness :
    (selectMode (NewServer "." "eth0" defaultControlplane)
        (runDhclient (some (3, ⟨3232235530, 24, [3232235521], ["192.168.1.1"]⟩)))
        3232267009 3232267008 24).1.ProxyDHCP = true ∧
    (selectMode (NewServer "." "eth0" defaultControlplane)
        (runDhclient (some (3, ⟨3232235530, 24, [3232235521], ["192.168.1.1"]⟩)))
        3232267009 3232267008 24).1.IP =
      (⟨3232235530, 24, [3232235521], ["192.168.1.1"]⟩ : Lease).fixedAddress ∧
    (selectMode (NewServer "." "eth0" defaultControlplane)
        (runDhclient (some (3, ⟨3232235530, 24, [3232235521], ["192.168.1.1"]⟩)))
        3232267009 3232267008 24).1.ForwardDns =
      (NewServer "." "eth0" defaultControlplane).ForwardDns ++
        (⟨3232235530, 24, [3232235521], ["192.168.1.1"]⟩ : Lease).dns.map
          (fun d => d ++ ":53") ∧
    (selectMode (NewServer "." "eth0" defaultControlplane)
        (runDhclient (some (3, ⟨3232235530, 24, [3232235521], ["192.168.1.1"]⟩)))
        3232267009 3232267008 24).1.DHCPAllocator = none ∧
    LinkAction.setLinkIp (⟨3232235530, 24, [3232235521], ["192.168.1.1"]⟩ : Lease).fixedAddress
        (⟨3232235530, 24, [3232235521], ["192.168.1.1"]⟩ : Lease).maskLen ∈
      (selectMode (NewServer "." "eth0" defaultControlplane)
        (runDhclient (some (3, ⟨3232235530, 24, [3232235521], ["192.168.1.1"]⟩)))
        3232267009 3232267008 24).2 ∧
    runDhclient (some (dhclientTimeout + 7, ⟨3232235530, 24, [3232235521], ["192.168.1.1"]⟩)) =
      none ∧
    (selectMode (NewServer "." "eth0" defaultControlplane) (runDhclient none)
        3232267009 3232267008 24).1.ProxyDHCP = false ∧
    (selectMode (NewServer "." "eth0" defaultControlplane) (runDhclient none)
        3232267009 3232267008 24).1.IP = 3232267009 ∧
    (selectMode (NewServer "." "eth0" defaultControlplane) (runDhclient none)
        3232267009 3232267008 24).1.Net = some (3232267008, 24) ∧
    (selectMode (NewServer "." "eth0" defaultControlplane) (runDhclient none)
        3232267009 3232267008 24).1.DHCPAllocator =
      some (getAvailableRange 3232267008 24 3232267009) ∧
    LinkAction.setLinkIp 3232267009 24 ∈
      (selectMode (NewServer "." "eth0" defaultControlplane) (runDhclient none)
        3232267009 3232267008 24).2 :=
  selectMode_proxy_or_authoritative (NewServer "." "eth0" defaultControlplane) 3 7
    ⟨3232235530, 24, [3232235521], ["192.168.1.1"]⟩ 3232267009 3232267008 24
    rfl (by decide)

/-- C8: per-request errors are local.  On a `/ipxe` request whose
captured status is non-OK and whose query string fails to parse, the
handler returns with nothing written and the server state unchanged; on
a `/ipxe` request whose menu rendering fails, the handler responds with
HTTP status 500 and the server state is likewise unchanged.  Both
outcomes are ordinary return values of the (total) handler: no failure
escapes the request, and the shared DNS store is untouched in either
case. -/
theorem handler_request_errors_local (s : Server) (primary : BootRequest → HttpResponse)
    (req1 req2 : BootRequest)
    (h1p : req1.path = "/ipxe") (h1c : (primary req1).code ≠ StatusOK)
    (h1f : req1.parseFormOk = false)
    (h2p : req2.path = "/ipxe") (h2c : (primary req2).code = StatusOK) :
    ipxeWrapperMenuHandler s primary true req1 =
      { write := ClientWrite.nothingWritten, server := s, dnsRegs := [] } ∧
    ipxeWrapperMenuHandler s primary false req2 =
      { write := ClientWrite.renderError, server := s, dnsRegs := [] } ∧
    writeStatus (ipxeWrapperMenuHandler s primary false req2).write = some 500 := by
  have e1 : ipxeWrapperMenuHandler s primary true req1 =
      { write := ClientWrite.nothingWritten, server := s, dnsRegs := [] } := by
    simp [ipxeWrapperMenuHandler, h1p, h1c, h1f]
  have e2 : ipxeWrapperMenuHandler s primary false req2 =
      { write := ClientWrite.renderError, server := s, dnsRegs := [] } := by
    simp [ipxeWrapperMenuHandler, h2p, h2c]
  exact ⟨e1, e2, by rw [e2]; rfl⟩

/-- C8 witness: the two failing requests against a handler that answers
404 for type `worker` and 200 otherwise. -/
theorem handler_request_errors_local_witness :
    ipxeWrapperMenuHandler testServer mixedPrimary true badFormRequest =
      { write := ClientWrite.nothingWritten, server := testServer, dnsRegs := [] } ∧
    ipxeWrapperMenuHandler testServer mixedPrimary false cpRequest =
      { write := ClientWrite.renderError, server := testServer, dnsRegs := [] } ∧
    writeStatus (ipxeWrapperMenuHandler testServer mixedPrimary false cpRequest).write =
      some 500 :=
  handler_request_errors_local testServer mixedPrimary badFormRequest cpRequest
    rfl (by decide) rfl rfl (by decide)

end TalosPxe
